import Mathlib

/-!
Verification development for the CarbonFootprint Analyzer.

Shallow embedding of the calculation core of `main(2).py`:
the `DataValidator` checks, the `CarbonCalculator` row conversion
(`_process_row`), the batch entry points (`_calc_json`, `_calc_csv`,
`_update_history`), and the aggregation / baseline-comparison arithmetic
of `_update_display`.

Numeric model: Python floats are modelled as exact rationals (ℚ).
`round(x, 2)` is modelled as round-half-to-even at two decimal places
(`pyRound2`), which is Python's rounding mode; binary floating-point
representation error is outside the model.  All concrete values used in
the theorems below are far from rounding boundaries, so the rational
results coincide with the float results of the source.

Input model: a raw row (a CSV `DictReader` row or a JSON object) is a
record of optional fields; `none` models an absent key.  The numeric
fields are modelled as rationals directly (the source coerces numeric
strings with `float(...)`; non-numeric strings are out of scope of the
claims).  A file source is `Option`-wrapped: `none` models any read
failure (missing file, malformed structure, decode error), `some`
carries the parsed content.
-/

/-- Round-half-to-even to an integer, Python's rounding mode for `round`. -/
def roundHalfEven (x : ℚ) : ℤ :=
  if x - ⌊x⌋ < 1/2 then ⌊x⌋
  else if 1/2 < x - ⌊x⌋ then ⌊x⌋ + 1
  else if ⌊x⌋ % 2 = 0 then ⌊x⌋ else ⌊x⌋ + 1

/-- Model of Python `round(x, 2)` on exact rationals. -/
def pyRound2 (x : ℚ) : ℚ := (roundHalfEven (x * 100) : ℚ) / 100

/-! ### The factor table `CarbonCalculator.FACTORS` (source lines 73-78) -/

/-- `FACTORS['transport']['car'] = 0.2`. -/
def carFactor : ℚ := 0.2

/-- `FACTORS['transport']['bus'] = 0.08`. -/
def busFactor : ℚ := 0.08

/-- `FACTORS['transport']['train'] = 0.05` (present in the table, unused by `_process_row`). -/
def trainFactor : ℚ := 0.05

/-- `FACTORS['diet']`: a lookup that fails (`KeyError`) on an unrecognized key. -/
def dietFactor (dt : String) : Option ℚ :=
  if dt = "meat" then some 2.5
  else if dt = "vegan" then some 1.0
  else if dt = "mixed" then some 1.5
  else none

/-- `FACTORS['energy'] = 0.5`. -/
def energyFactor : ℚ := 0.5

/-- `FACTORS['waste'] = 0.2`. -/
def wasteFactor : ℚ := 0.2

/-! ### Data model -/

/-- One raw input row.  `none` models an absent key in the underlying
dict; `row.get(k, d)` is modelled by `Option.getD`. -/
structure RawRow where
  date : Option String
  diet_type : Option String
  energy_kwh : Option ℚ
  car_km : Option ℚ
  bus_km : Option ℚ
  waste_kg : Option ℚ
  meals : Option ℚ
deriving DecidableEq

/-- The dict returned by `_process_row` (source lines 145-152).
The parsed date is modelled as a (year, month, day) triple. -/
structure EmissionBreakdown where
  date : Nat × Nat × Nat
  transport : ℚ
  diet : ℚ
  energy : ℚ
  waste : ℚ
  total : ℚ
deriving DecidableEq

/-! ### Date parsing: `datetime.strptime(s, "%Y-%m-%d")`

CPython's `_strptime` compiles `%Y-%m-%d` to the regex
`(\d\d\d\d)-(1[0-2]|0[1-9]|[1-9])-(3[01]|[12]\d|0[1-9]|[1-9])`, requires
the whole string to match, and then `datetime` construction rejects
year 0 and days that do not exist in the given month (Gregorian leap
rule).  Note the month and day groups accept one OR two digits: strptime
does NOT insist on zero padding.  Since all three groups are digit-only,
matching the whole pattern is equivalent to splitting on the dash
character and checking each piece, which is what `parseDate` does. -/

/-- Split a character list on the dash character (faithful companion of
the dash-separated regex match; the pieces are digit-checked afterwards). -/
def splitDash : List Char → List (List Char)
  | [] => [[]]
  | c :: cs =>
    let rest := splitDash cs
    if c = '-' then [] :: rest
    else
      match rest with
      | [] => [[c]]
      | g :: gs => (c :: g) :: gs

/-- ASCII decimal digit test. -/
def charIsDigit (c : Char) : Bool := '0' ≤ c && c ≤ '9'

/-- Numeric value of a digit string. -/
def digitsVal (cs : List Char) : Nat :=
  cs.foldl (fun a c => a * 10 + (c.toNat - 48)) 0

/-- Length of a month, Gregorian calendar (as `datetime` enforces). -/
def daysInMonth (y m : Nat) : Nat :=
  if m = 2 then (if (y % 4 = 0 && y % 100 != 0) || y % 400 = 0 then 29 else 28)
  else if m = 4 || m = 6 || m = 9 || m = 11 then 30 else 31

/-- Model of `datetime.strptime(s, "%Y-%m-%d")`: `some (y, m, d)` on
success, `none` when strptime raises `ValueError` (pattern mismatch or
non-existent calendar date). -/
def parseDate (s : String) : Option (Nat × Nat × Nat) :=
  match splitDash s.data with
  | [ys, ms, ds] =>
    if ys.length = 4 && ys.all charIsDigit &&
       (ms.length = 1 || ms.length = 2) && ms.all charIsDigit &&
       (ds.length = 1 || ds.length = 2) && ds.all charIsDigit then
      let y := digitsVal ys
      let m := digitsVal ms
      let d := digitsVal ds
      if 1 ≤ y && 1 ≤ m && m ≤ 12 && 1 ≤ d && d ≤ daysInMonth y m then
        some (y, m, d)
      else none
    else none
  | _ => none

/-! ### Row conversion: `CarbonCalculator._process_row` (source lines 133-154) -/

/-- A single-quote character, for reproducing Python error messages
(`str(KeyError(k))` is the key wrapped in single quotes). -/
def squote : String := (Char.ofNat 39).toString

/-- The `ValueError` message raised on a `KeyError` for key `k`
(source line 154): the Chinese text means "missing mandatory field". -/
def missingFieldMsg (k : String) : String :=
  "缺少必要字段：" ++ squote ++ k ++ squote

/-- The `ValueError` message `strptime` raises on a non-matching date
string (out-of-range calendar dates produce a different text in CPython;
the model conflates the two, no claim depends on that text). -/
def dateMismatchMsg (ds : String) : String :=
  "time data " ++ squote ++ ds ++ squote ++ " does not match format " ++
    squote ++ "%Y-%m-%d" ++ squote

/-- Source line 137-140: `car_km * 0.2 + bus_km * 0.08`, missing
distances defaulting to 0. -/
def rawTransport (r : RawRow) : ℚ :=
  (r.car_km.getD 0) * carFactor + (r.bus_km.getD 0) * busFactor

/-- Source line 141: `FACTORS['diet'][diet_type] * meals`, `meals`
defaulting to 1; `df` is the already-looked-up diet factor. -/
def rawDiet (df : ℚ) (r : RawRow) : ℚ := df * (r.meals.getD 1)

/-- Source line 142: `energy_kwh * 0.5`. -/
def rawEnergy (ek : ℚ) : ℚ := ek * energyFactor

/-- Source line 143: `waste_kg * 0.2`, defaulting to 0. -/
def rawWaste (r : RawRow) : ℚ := (r.waste_kg.getD 0) * wasteFactor

/-- `CarbonCalculator._process_row`.  Field accesses happen in source
order: `row['date']` (KeyError if absent), `strptime` (ValueError if
non-matching, uncaught by the `except KeyError` clause but still a
conversion failure), transport (defaults, cannot fail), `row['diet_type']`
then the `FACTORS['diet']` lookup (KeyError on an unrecognized value),
`row['energy_kwh']` (KeyError if absent), waste (defaults).  Every
KeyError is re-raised as `ValueError(missingFieldMsg key)`.  The returned
breakdown stores the four category values rounded to 2 decimals and
`total = round(transport + diet + energy + waste, 2)` computed from the
UNROUNDED values (source line 151). -/
def process_row (r : RawRow) : Except String EmissionBreakdown :=
  match r.date with
  | none => .error (missingFieldMsg "date")
  | some ds =>
    match parseDate ds with
    | none => .error (dateMismatchMsg ds)
    | some d =>
      let transport := rawTransport r
      match r.diet_type with
      | none => .error (missingFieldMsg "diet_type")
      | some dt =>
        match dietFactor dt with
        | none => .error (missingFieldMsg dt)
        | some df =>
          let diet := rawDiet df r
          match r.energy_kwh with
          | none => .error (missingFieldMsg "energy_kwh")
          | some ek =>
            let energy := rawEnergy ek
            let waste := rawWaste r
            .ok { date := d
                  transport := pyRound2 transport
                  diet := pyRound2 diet
                  energy := pyRound2 energy
                  waste := pyRound2 waste
                  total := pyRound2 (transport + diet + energy + waste) }

/-! ### Validators: `DataValidator` (source lines 33-54) -/

/-- The three mandatory keys, present in a row model. -/
def mandatoryPresent (r : RawRow) : Bool :=
  r.date.isSome && r.diet_type.isSome && r.energy_kwh.isSome

/-- `DataValidator.validate_json`: a read failure (`none`) yields
`false` via the bare `except`; otherwise every object in the list must
contain all three required fields. -/
def validate_json (source : Option (List RawRow)) : Bool :=
  match source with
  | none => false
  | some items => items.all mandatoryPresent

/-- `DataValidator.validate_csv`: a read failure yields `false`;
otherwise the required columns must be a subset of the header field
names (header only, rows are not inspected). -/
def validate_csv (source : Option (List String × List RawRow)) : Bool :=
  match source with
  | none => false
  | some (fieldnames, _) =>
    ["date", "diet_type", "energy_kwh"].all (fun c => fieldnames.contains c)

/-! ### Batch entry points (source lines 87-131) -/

/-- The loop `for row in rows: data.append(self._process_row(row))`:
the first raised row error aborts the loop, discarding the partial
`data` list. -/
def process_rows : List RawRow → Except String (List EmissionBreakdown)
  | [] => .ok []
  | r :: rs =>
    match process_row r with
    | .error e => .error e
    | .ok b =>
      match process_rows rs with
      | .error e => .error e
      | .ok bs => .ok (b :: bs)

/-- `CarbonCalculator.history`: the session history the batch entry
points extend via `_update_history` on success. -/
abbrev History := List EmissionBreakdown

/-- Source line 109 error text. -/
def invalidJsonMsg : String :=
  "无效的 JSON 格式。所需字段：date, diet_type, energy_kwh, car_km, bus_km"

/-- Source line 124 error text. -/
def invalidCsvMsg : String :=
  "无效的 CSV 格式。所需列：date, diet_type, energy_kwh"

/-- `CarbonCalculator._calc_json`: validate, convert every row, then
`_update_history` (history extension) only after all rows succeeded.
The returned pair is (result, history after the call). -/
def calc_json (history : History) (source : Option (List RawRow)) :
    Except String (List EmissionBreakdown) × History :=
  if validate_json source then
    match process_rows (source.getD []) with
    | .error e => (.error e, history)
    | .ok data => (.ok data, history ++ data)
  else (.error invalidJsonMsg, history)

/-- `CarbonCalculator._calc_csv`: same shape as `_calc_json` with the
header-based validator. -/
def calc_csv (history : History) (source : Option (List String × List RawRow)) :
    Except String (List EmissionBreakdown) × History :=
  if validate_csv source then
    match process_rows ((source.getD ([], [])).2) with
    | .error e => (.error e, history)
    | .ok data => (.ok data, history ++ data)
  else (.error invalidCsvMsg, history)

/-! ### Aggregation and comparison: `CarbonApp._update_display` (source lines 338-357) -/

/-- The `category_totals` / `average_totals` / `differences` dicts, keyed
by the four fixed categories. -/
structure CategoryTotals where
  transport : ℚ
  diet : ℚ
  energy : ℚ
  waste : ℚ
deriving DecidableEq

/-- Source line 339: `{cat: sum(d[cat] for d in data) for cat in categories}`. -/
def aggregate (data : List EmissionBreakdown) : CategoryTotals :=
  { transport := (data.map EmissionBreakdown.transport).sum
    diet := (data.map EmissionBreakdown.diet).sum
    energy := (data.map EmissionBreakdown.energy).sum
    waste := (data.map EmissionBreakdown.waste).sum }

/-- Source lines 345-350: the fixed world-average baseline. -/
def average_totals : CategoryTotals :=
  { transport := 50, diet := 40, energy := 30, waste := 20 }

/-- Source line 356: `{cat: category_totals[cat] - average_totals[cat]}`,
with the baseline generalized to a parameter as in the spec's `compare`. -/
def differences (ct baseline : CategoryTotals) : CategoryTotals :=
  { transport := ct.transport - baseline.transport
    diet := ct.diet - baseline.diet
    energy := ct.energy - baseline.energy
    waste := ct.waste - baseline.waste }

/-- `sum(d.values())` over a category dict. -/
def sumCategories (c : CategoryTotals) : ℚ :=
  c.transport + c.diet + c.energy + c.waste

/-- Source line 357: `sum(category_totals.values()) - sum(average_totals.values())`. -/
def total_difference (ct baseline : CategoryTotals) : ℚ :=
  sumCategories ct - sumCategories baseline

/-! ### Concrete rows used in the theorems -/

/-- The first sample CSV row shown by `_show_format`:
`2023-08-01,meat,12.5,15.2,3.0,0.3` (no `meals` column). -/
def sampleRow : RawRow :=
  { date := some "2023-08-01", diet_type := some "meat", energy_kwh := some 12.5
    car_km := some 15.2, bus_km := some 3.0, waste_kg := some 0.3, meals := none }

/-- A valid row whose raw category values 0.004 + 2.5 + 0 + 0.004 round
differently before and after summation. -/
def rowC1 : RawRow :=
  { date := some "2023-01-01", diet_type := some "meat", energy_kwh := some 0
    car_km := some 0.02, bus_km := none, waste_kg := some 0.02, meals := none }

/-- The breakdown `_process_row` produces for `rowC1`. -/
def bC1 : EmissionBreakdown :=
  { date := (2023, 1, 1), transport := 0, diet := 2.5, energy := 0
    waste := 0, total := 2.51 }

/-- A row whose date has a non-zero-padded month and day. -/
def rowNonPadded : RawRow :=
  { date := some "2023-8-1", diet_type := some "vegan", energy_kwh := some 0
    car_km := none, bus_km := none, waste_kg := none, meals := none }

/-- A row lacking the mandatory `energy_kwh` field. -/
def rowMissingEnergy : RawRow :=
  { date := some "2023-08-01", diet_type := some "meat", energy_kwh := none
    car_km := none, bus_km := none, waste_kg := none, meals := none }

/-- A row with an unrecognized `diet_type`. -/
def rowKeto : RawRow :=
  { date := some "2023-08-01", diet_type := some "keto", energy_kwh := some 12.5
    car_km := none, bus_km := none, waste_kg := none, meals := none }

/-- A row whose date is in the wrong format. -/
def rowBadDate : RawRow :=
  { date := some "08/01/2023", diet_type := some "meat", energy_kwh := some 12.5
    car_km := none, bus_km := none, waste_kg := none, meals := none }

lemma parseDate_padded : parseDate "2023-08-01" = some (2023, 8, 1) := by decide

lemma dietFactor_meat : dietFactor "meat" = some 2.5 := by simp [dietFactor]

lemma process_row_sample :
    process_row sampleRow =
      .ok { date := (2023, 8, 1), transport := 3.28, diet := 2.5
            energy := 6.25, waste := 0.06, total := 12.09 } := by
  simp only [process_row, sampleRow, parseDate_padded, dietFactor_meat]
  norm_num [rawTransport, rawDiet, rawEnergy, rawWaste, carFactor, busFactor,
    energyFactor, wasteFactor, pyRound2, roundHalfEven]

/-- Claim C2: converting the sample row (date 2023-08-01, meat diet,
12.5 kWh, 15.2 car km, 3.0 bus km, 0.3 kg waste, no meals field) yields
transport 3.28, diet 2.5, energy 6.25, waste 0.06, total 12.09 under the
literal factor table. -/
theorem C2_sample_row :
    process_row sampleRow =
      .ok { date := (2023, 8, 1), transport := 3.28, diet := 2.5
            energy := 6.25, waste := 0.06, total := 12.09 } :=
  process_row_sample

lemma parseDate_jan : parseDate "2023-01-01" = some (2023, 1, 1) := by decide

lemma process_row_rowC1 : process_row rowC1 = .ok bC1 := by
  simp only [process_row, rowC1, parseDate_jan, dietFactor_meat]
  norm_num [bC1, rawTransport, rawDiet, rawEnergy, rawWaste, carFactor,
    busFactor, energyFactor, wasteFactor, pyRound2, roundHalfEven]

/-- Claim C1, counterexample: for `rowC1` (car_km 0.02, waste_kg 0.02,
meat diet, 0 kWh) the stored total is 2.51 (the code rounds the sum of
the UNROUNDED category values 0.004 + 2.5 + 0 + 0.004 = 2.508), while
rounding the sum of the already-rounded stored fields 0 + 2.5 + 0 + 0
gives 2.5, so the claimed identity fails. -/
theorem C1_counterexample :
    process_row rowC1 = .ok bC1 ∧
    bC1.transport = 0 ∧ bC1.diet = 2.5 ∧ bC1.energy = 0 ∧ bC1.waste = 0 ∧
    pyRound2 (bC1.transport + bC1.diet + bC1.energy + bC1.waste) = 2.5 ∧
    bC1.total = 2.51 ∧ (2.51 : ℚ) ≠ 2.5 := by
  refine ⟨process_row_rowC1, rfl, rfl, rfl, rfl, ?_, rfl, by norm_num⟩
  norm_num [bC1, pyRound2, roundHalfEven]

/-- Claim C1, amended: for every row that converts successfully, each
stored category field is the 2-decimal rounding of the corresponding raw
(unrounded) category value, and `total` is the 2-decimal rounding of the
sum of those UNROUNDED values — not of the rounded stored fields. -/
theorem C1_total_from_unrounded (r : RawRow) (dt : String) (df ek : ℚ)
    (b : EmissionBreakdown)
    (hdt : r.diet_type = some dt) (hdf : dietFactor dt = some df)
    (hek : r.energy_kwh = some ek) (hb : process_row r = .ok b) :
    b.transport = pyRound2 (rawTransport r) ∧
    b.diet = pyRound2 (rawDiet df r) ∧
    b.energy = pyRound2 (rawEnergy ek) ∧
    b.waste = pyRound2 (rawWaste r) ∧
    b.total = pyRound2 (rawTransport r + rawDiet df r + rawEnergy ek + rawWaste r) := by
  cases h1 : r.date with
  | none => simp [process_row, h1] at hb
  | some ds =>
    cases h2 : parseDate ds with
    | none => simp [process_row, h1, h2] at hb
    | some d =>
      simp only [process_row, h1, h2, hdt, hdf, hek, Except.ok.injEq] at hb
      subst hb
      exact ⟨rfl, rfl, rfl, rfl, rfl⟩

/-- Witness for C1_total_from_unrounded at `rowC1`. -/
theorem C1_total_from_unrounded_witness :
    bC1.total =
      pyRound2 (rawTransport rowC1 + rawDiet 2.5 rowC1 + rawEnergy 0 + rawWaste rowC1) :=
  (C1_total_from_unrounded rowC1 "meat" 2.5 0 bC1 rfl dietFactor_meat rfl
    process_row_rowC1).2.2.2.2

/-- Claim C5: for every row lacking `energy_kwh` (whose earlier stages
pass: date present and parseable, diet recognized), conversion fails and
the error message embeds the missing field name `energy_kwh`. -/
theorem C5_missing_energy (r : RawRow) (ds dt : String) (df : ℚ)
    (h1 : r.date = some ds) (h2 : (parseDate ds).isSome = true)
    (h3 : r.diet_type = some dt) (h4 : dietFactor dt = some df)
    (h5 : r.energy_kwh = none) :
    process_row r = .error (missingFieldMsg "energy_kwh") ∧
    ∃ pre post, missingFieldMsg "energy_kwh" = pre ++ "energy_kwh" ++ post := by
  obtain ⟨d, hd⟩ := Option.isSome_iff_exists.mp h2
  exact ⟨by simp [process_row, h1, hd, h3, h4, h5],
    "缺少必要字段：" ++ squote, squote, rfl⟩

/-- Witness for C5_missing_energy at `rowMissingEnergy`. -/
theorem C5_missing_energy_witness :
    process_row rowMissingEnergy = .error (missingFieldMsg "energy_kwh") ∧
    ∃ pre post, missingFieldMsg "energy_kwh" = pre ++ "energy_kwh" ++ post :=
  C5_missing_energy rowMissingEnergy "2023-08-01" "meat" 2.5 rfl (by decide)
    rfl dietFactor_meat rfl

lemma dietFactor_keto : dietFactor "keto" = none := by decide

/-- Claim C6: for every row whose `diet_type` is present but not one of
the three recognized values (the `FACTORS['diet']` lookup fails),
conversion fails, and the error message embeds the unrecognized key that
the failed lookup raised. -/
theorem C6_unrecognized_diet (r : RawRow) (ds dt : String)
    (h1 : r.date = some ds) (h2 : (parseDate ds).isSome = true)
    (h3 : r.diet_type = some dt) (h4 : dietFactor dt = none) :
    process_row r = .error (missingFieldMsg dt) ∧
    ∃ pre post, missingFieldMsg dt = pre ++ dt ++ post := by
  obtain ⟨d, hd⟩ := Option.isSome_iff_exists.mp h2
  exact ⟨by simp [process_row, h1, hd, h3, h4],
    "缺少必要字段：" ++ squote, squote, rfl⟩

/-- Witness for C6_unrecognized_diet at `rowKeto`. -/
theorem C6_unrecognized_diet_witness :
    process_row rowKeto = .error (missingFieldMsg "keto") ∧
    ∃ pre post, missingFieldMsg "keto" = pre ++ "keto" ++ post :=
  C6_unrecognized_diet rowKeto "2023-08-01" "keto" rfl (by decide) rfl
    dietFactor_keto

lemma parseDate_nonpadded : parseDate "2023-8-1" = some (2023, 8, 1) := by decide

lemma dietFactor_vegan : dietFactor "vegan" = some 1.0 := by simp [dietFactor]

/-- Claim C7, counterexample: the date string `2023-8-1` has a
non-zero-padded month and day, yet `strptime` with `%Y-%m-%d` accepts it
(its month and day groups match one OR two digits), so conversion of
`rowNonPadded` succeeds instead of being rejected. -/
theorem C7_counterexample :
    parseDate "2023-8-1" = some (2023, 8, 1) ∧
    process_row rowNonPadded =
      .ok { date := (2023, 8, 1), transport := 0, diet := 1
            energy := 0, waste := 0, total := 1 } := by
  refine ⟨parseDate_nonpadded, ?_⟩
  simp only [process_row, rowNonPadded, parseDate_nonpadded, dietFactor_vegan]
  norm_num [rawTransport, rawDiet, rawEnergy, rawWaste, carFactor, busFactor,
    energyFactor, wasteFactor, pyRound2, roundHalfEven]

/-- Claim C7, amended: conversion fails with the strptime mismatch error
whenever the date string does not match `%Y-%m-%d` as implemented
(4-digit year, dash separators, in-range month/day of one or two digits,
existing calendar date); zero padding of month and day is NOT enforced. -/
theorem C7_date_parse_failure (r : RawRow) (ds : String)
    (h1 : r.date = some ds) (h2 : parseDate ds = none) :
    process_row r = .error (dateMismatchMsg ds) := by
  simp [process_row, h1, h2]

/-- Witness for C7_date_parse_failure at `rowBadDate`. -/
theorem C7_date_parse_failure_witness :
    process_row rowBadDate = .error (dateMismatchMsg "08/01/2023") :=
  C7_date_parse_failure rowBadDate "08/01/2023" rfl (by decide)

/-- Claim C3: for every pair of category totals and baseline, the
per-category differences of `_update_display` satisfy
`differences[cat] + baseline[cat] = categoryTotals[cat]` for each of the
four categories, and the total difference is the difference of the
summed category values. -/
theorem C3_compare_consistent (ct baseline : CategoryTotals) :
    (differences ct baseline).transport + baseline.transport = ct.transport ∧
    (differences ct baseline).diet + baseline.diet = ct.diet ∧
    (differences ct baseline).energy + baseline.energy = ct.energy ∧
    (differences ct baseline).waste + baseline.waste = ct.waste ∧
    total_difference ct baseline = sumCategories ct - sumCategories baseline := by
  refine ⟨?_, ?_, ?_, ?_, rfl⟩ <;> simp [differences]

/-- Claim C4: aggregation sums each of the four category values across
the batch; the empty batch yields all-zero totals, and permuting the
input breakdowns leaves the totals unchanged. -/
theorem C4_aggregate_props :
    aggregate [] = { transport := 0, diet := 0, energy := 0, waste := 0 } ∧
    (∀ (b : EmissionBreakdown) (l : List EmissionBreakdown),
      aggregate (b :: l) =
        { transport := b.transport + (aggregate l).transport
          diet := b.diet + (aggregate l).diet
          energy := b.energy + (aggregate l).energy
          waste := b.waste + (aggregate l).waste }) ∧
    (∀ (l₁ l₂ : List EmissionBreakdown), l₁.Perm l₂ → aggregate l₁ = aggregate l₂) := by
  refine ⟨rfl, ?_, ?_⟩
  · intro b l
    simp [aggregate]
  · intro l₁ l₂ h
    simp only [aggregate, CategoryTotals.mk.injEq]
    exact ⟨(h.map _).sum_eq, (h.map _).sum_eq, (h.map _).sum_eq, (h.map _).sum_eq⟩

/-- Claim C8: `validate_json` returns false on any read failure, and on
a readable object list it returns true exactly when every object
individually contains all three mandatory keys (so one non-conforming
object invalidates the whole source). -/
theorem C8_validate_json_spec :
    validate_json none = false ∧
    ∀ (items : List RawRow),
      (validate_json (some items) = true ↔
        ∀ r ∈ items, r.date.isSome ∧ r.diet_type.isSome ∧ r.energy_kwh.isSome) := by
  refine ⟨rfl, fun items => ?_⟩
  simp [validate_json, mandatoryPresent, List.all_eq_true, and_assoc]

lemma process_rows_error_of_mem {rows : List RawRow}
    (h : ∃ r ∈ rows, ∃ e, process_row r = .error e) :
    ∃ e, process_rows rows = .error e := by
  induction rows with
  | nil => simp at h
  | cons a as ih =>
    obtain ⟨r, hr, e, he⟩ := h
    simp only [List.mem_cons] at hr
    cases hr with
    | inl h1 =>
      subst h1
      exact ⟨e, by simp [process_rows, he]⟩
    | inr h2 =>
      cases hpa : process_row a with
      | error e2 => exact ⟨e2, by simp [process_rows, hpa]⟩
      | ok b =>
        obtain ⟨e3, he3⟩ := ih ⟨r, h2, e, he⟩
        exact ⟨e3, by simp [process_rows, hpa, he3]⟩

/-- Claim C9: when any row of a batch fails to convert, both batch entry
points return an error with no partial results, and the session history
they return is exactly the history they were given (unchanged). -/
theorem C9_batch_abort (history : History) (rows : List RawRow)
    (h : ∃ r ∈ rows, ∃ e, process_row r = Except.error e) :
    (∃ e₁, calc_json history (some rows) = (Except.error e₁, history)) ∧
    ∀ (fieldnames : List String),
      ∃ e₂, calc_csv history (some (fieldnames, rows)) = (Except.error e₂, history) := by
  obtain ⟨e, he⟩ := process_rows_error_of_mem h
  constructor
  · by_cases hv : validate_json (some rows) = true
    · exact ⟨e, by simp [calc_json, hv, he]⟩
    · exact ⟨invalidJsonMsg, by simp [calc_json, hv]⟩
  · intro fieldnames
    by_cases hv : validate_csv (some (fieldnames, rows)) = true
    · exact ⟨e, by simp [calc_csv, hv, he]⟩
    · exact ⟨invalidCsvMsg, by simp [calc_csv, hv]⟩

lemma process_row_rowKeto : process_row rowKeto = .error (missingFieldMsg "keto") := by
  simp [process_row, rowKeto, parseDate_padded, dietFactor_keto]

/-- Witness for C9_batch_abort: a one-row batch whose row has an
unrecognized diet type. -/
theorem C9_batch_abort_witness :
    (∃ e₁, calc_json [] (some [rowKeto]) = (Except.error e₁, [])) ∧
    ∀ (fieldnames : List String),
      ∃ e₂, calc_csv [] (some (fieldnames, [rowKeto])) = (Except.error e₂, []) :=
  C9_batch_abort [] [rowKeto]
    ⟨rowKeto, by simp, missingFieldMsg "keto", process_row_rowKeto⟩

/-- Claim C10: the empty JSON array passes validation (the all-objects
check is vacuous) and converting it yields the empty batch, leaving the
history unchanged. -/
theorem C10_empty_source :
    validate_json (some []) = true ∧
    ∀ (history : History), calc_json history (some []) = (Except.ok [], history) := by
  refine ⟨rfl, fun history => ?_⟩
  simp [calc_json, validate_json, process_rows]
